import Mathlib

/-!
Verification of the terminal-mode guard in `src/bis_c.c` (repository
jrasky/bis).  The C file holds three globals — a `char bis_term_info_set`
flag, a `struct termios bis_term_info` snapshot and a
`struct bis_error_info_t bis_error_info` record — and two functions,
`bis_prepare_terminal` and `bis_restore_terminal`, which wrap the OS calls
`tcgetattr` / `tcsetattr` on the standard-output terminal.

The shallow embedding models `struct termios` as a record of its fields,
the process globals as a record, and the live terminal device as a further
`Termios` value.  Each OS call may fail; a failing call is modelled as
leaving the device untouched, and each embedded function takes one Bool
per OS call it performs, saying whether that call succeeds.
-/

/-- The fields of `struct termios` (glibc layout): four flag words, the
line discipline byte, the control-character array and the two speeds.
The flag words are 32-bit unsigned in C; here they are `Nat`, with the
width made explicit wherever a bitwise complement occurs. -/
structure Termios where
  c_iflag : Nat
  c_oflag : Nat
  c_cflag : Nat
  c_lflag : Nat
  c_line : Nat
  c_cc : List Nat
  c_ispeed : Nat
  c_ospeed : Nat
deriving DecidableEq, Repr

/-- The Linux value of the `ICANON` local-mode flag, `0o000002`. -/
def ICANON : Nat := 2

/-- The 32-bit value of `~ICANON` as a `tcflag_t`, i.e. `0xFFFFFFFD`. -/
def notICANON32 : Nat := 2 ^ 32 - 1 - ICANON

/-- `terminfo_p.c_lflag &= ~ICANON`: clear the canonical-mode bit of the
local-mode flag word, leaving every other field of the struct alone. -/
def clearCanon (t : Termios) : Termios :=
  { t with c_lflag := t.c_lflag &&& notICANON32 }

/-- `struct bis_error_info_t`: a message pointer (null initially, hence
`Option`) and the `is_errno` char, used only as a boolean. -/
structure ErrorInfo where
  error_str : Option String
  is_errno : Bool
deriving DecidableEq, Repr

/-- The process-wide globals of `bis_c.c`: `bis_term_info_set`,
`bis_term_info` and `bis_error_info`.  The `char` flag only ever holds 0
or 1 in the source, so it is a `Bool` here. -/
structure Globals where
  term_info_set : Bool
  term_info : Termios
  error_info : ErrorInfo
deriving DecidableEq, Repr

/-- The whole state a call can read or write: the globals plus the
attribute set currently held by the terminal device on `STDOUT_FILENO`. -/
structure SysState where
  globals : Globals
  terminal : Termios
deriving DecidableEq, Repr

/-- The globals at program start: `bis_term_info_set = 0`,
`bis_error_info = { .error_str = NULL, .is_errno = 0 }`, and an
indeterminate `bis_term_info` (parameterised here). -/
def initGlobals (t0 : Termios) : Globals :=
  { term_info_set := false
    term_info := t0
    error_info := { error_str := none, is_errno := false } }

/-- `bis_prepare_terminal`.  `getOk` says whether the `tcgetattr` call
succeeds, `setOk` whether the `tcsetattr` call succeeds.  Returns the C
return value (`0` or `-1`) and the post-call state.  A failing OS call
leaves the device attributes untouched. -/
def bis_prepare_terminal (getOk setOk : Bool) (s : SysState) : Int × SysState :=
  if getOk = false then
    (-1, { s with globals := { s.globals with
             error_info := { error_str := some "Error getting terminal attributes"
                             is_errno := true } } })
  else
    let terminfo_p := s.terminal
    let g := { s.globals with term_info := terminfo_p, term_info_set := true }
    let modified := clearCanon terminfo_p
    if setOk = false then
      (-1, { globals := { g with
               error_info := { error_str := some "Error setting terminal attributes"
                               is_errno := true } }
             terminal := s.terminal })
    else
      (0, { globals := g, terminal := modified })

/-- `bis_restore_terminal`.  `setOk` says whether the `tcsetattr` call
succeeds.  When `bis_term_info_set != 1` the function fails before any OS
call is made. -/
def bis_restore_terminal (setOk : Bool) (s : SysState) : Int × SysState :=
  if s.globals.term_info_set = false then
    (-1, { s with globals := { s.globals with
             error_info :=
               { error_str := some "bis_restore_terminal called before bis_prepare_terminal"
                 is_errno := false } } })
  else if setOk = false then
    (-1, { s with globals := { s.globals with
             error_info := { error_str := some "Error restoring terminal attributes"
                             is_errno := true } } })
  else
    (0, { s with terminal := s.globals.term_info })

/-- One externally visible call, with the success of each OS call it
makes recorded in the constructor. -/
inductive Op where
  | prepare (getOk setOk : Bool)
  | restore (setOk : Bool)
deriving DecidableEq, Repr

/-- Run one call, keeping only the resulting state. -/
def runOp (op : Op) (s : SysState) : SysState :=
  match op with
  | Op.prepare getOk setOk => (bis_prepare_terminal getOk setOk s).2
  | Op.restore setOk => (bis_restore_terminal setOk s).2

/-- Run a sequence of calls from a starting state. -/
def runOps (ops : List Op) (s : SysState) : SysState :=
  match ops with
  | [] => s
  | op :: rest => runOps rest (runOp op s)

/-- A concrete attribute set used by witnesses: canonical mode on
(`ICANON` set in `c_lflag`), with distinct values elsewhere. -/
def sampleTermios : Termios :=
  { c_iflag := 0x500
    c_oflag := 5
    c_cflag := 0xBF
    c_lflag := 0x8A3B
    c_line := 0
    c_cc := [3, 28, 127, 21, 4, 0, 1, 0]
    c_ispeed := 15
    c_ospeed := 15 }

/-- A concrete whole-system state for witnesses: fresh globals, device
holding `sampleTermios`. -/
def sampleState : SysState :=
  { globals := initGlobals sampleTermios, terminal := sampleTermios }

/-! ## Helper lemmas about the canonical-mode bit -/

/-- Every bit of the 32-bit mask `~ICANON` below position 32 other than
bit 1 is set. -/
theorem testBit_notICANON32_of_ne_one (k : Nat) (hk : k < 32) (h1 : k ≠ 1) :
    Nat.testBit notICANON32 k = true := by
  interval_cases k
  all_goals first
    | decide
    | exact absurd rfl h1

/-- Bit 1 of the mask `~ICANON` is clear. -/
theorem testBit_notICANON32_one : Nat.testBit notICANON32 1 = false := by decide

/-- Clearing the canonical-mode bit indeed leaves bit 1 clear. -/
theorem clearCanon_testBit_one (t : Termios) :
    (clearCanon t).c_lflag.testBit 1 = false := by
  show (t.c_lflag &&& notICANON32).testBit 1 = false
  rw [Nat.testBit_land, testBit_notICANON32_one, Bool.and_false]

/-- Clearing the canonical-mode bit changes no other bit of `c_lflag`,
provided the flag word fits a `tcflag_t` (32 bits). -/
theorem clearCanon_testBit_of_ne_one (t : Termios) (h : t.c_lflag < 2 ^ 32)
    (k : Nat) (hk : k ≠ 1) :
    (clearCanon t).c_lflag.testBit k = t.c_lflag.testBit k := by
  show (t.c_lflag &&& notICANON32).testBit k = t.c_lflag.testBit k
  rw [Nat.testBit_land]
  by_cases hlt : k < 32
  · rw [testBit_notICANON32_of_ne_one k hlt hk, Bool.and_true]
  · push_neg at hlt
    have hx : t.c_lflag.testBit k = false :=
      Nat.testBit_lt_two_pow (lt_of_lt_of_le h (Nat.pow_le_pow_right (by norm_num) hlt))
    rw [hx, Bool.false_and]

/-! ## Claim theorems -/

/-- C1: a successful `bis_prepare_terminal` (both OS calls succeed)
followed immediately by a successful `bis_restore_terminal` leaves the
terminal device with an attribute set bit-for-bit equal to its state
before the prepare call. -/
theorem C1_prepare_restore_roundtrip (s : SysState) :
    (bis_prepare_terminal true true s).1 = 0 ∧
    (bis_restore_terminal true (bis_prepare_terminal true true s).2).1 = 0 ∧
    (bis_restore_terminal true (bis_prepare_terminal true true s).2).2.terminal
      = s.terminal := by
  refine ⟨rfl, ?_, ?_⟩ <;>
    simp [bis_prepare_terminal, bis_restore_terminal]

/-- C2: after a successful `bis_prepare_terminal`, the terminal's
`ICANON` bit (bit 1 of `c_lflag`) is clear, every other bit of `c_lflag`
is unchanged, and every other field of the attribute struct is unchanged,
given the C invariant that `c_lflag` fits in 32 bits. -/
theorem C2_prepare_clears_canon_only (s : SysState)
    (h : s.terminal.c_lflag < 2 ^ 32) :
    (bis_prepare_terminal true true s).1 = 0 ∧
    (bis_prepare_terminal true true s).2.terminal.c_lflag.testBit 1 = false ∧
    (∀ k, k ≠ 1 →
      (bis_prepare_terminal true true s).2.terminal.c_lflag.testBit k
        = s.terminal.c_lflag.testBit k) ∧
    (bis_prepare_terminal true true s).2.terminal.c_iflag = s.terminal.c_iflag ∧
    (bis_prepare_terminal true true s).2.terminal.c_oflag = s.terminal.c_oflag ∧
    (bis_prepare_terminal true true s).2.terminal.c_cflag = s.terminal.c_cflag ∧
    (bis_prepare_terminal true true s).2.terminal.c_line = s.terminal.c_line ∧
    (bis_prepare_terminal true true s).2.terminal.c_cc = s.terminal.c_cc ∧
    (bis_prepare_terminal true true s).2.terminal.c_ispeed = s.terminal.c_ispeed ∧
    (bis_prepare_terminal true true s).2.terminal.c_ospeed = s.terminal.c_ospeed := by
  refine ⟨rfl, ?_, ?_, rfl, rfl, rfl, rfl, rfl, rfl, rfl⟩
  · exact clearCanon_testBit_one s.terminal
  · intro k hk
    exact clearCanon_testBit_of_ne_one s.terminal h k hk

/-- Witness for C2 at a concrete state whose `c_lflag` has `ICANON`
set. -/
theorem C2_prepare_clears_canon_only_witness :
    (bis_prepare_terminal true true sampleState).2.terminal.c_lflag.testBit 1 = false :=
  (C2_prepare_clears_canon_only sampleState (by decide)).2.1

/-- C3: `bis_restore_terminal` with `bis_term_info_set` still false fails
with return value `-1` and `is_errno = 0`, leaves the terminal device and
the saved snapshot untouched, and its outcome does not depend on the
`tcsetattr` success flag because no OS call is reached. -/
theorem C3_restore_unprepared_fails (setOk : Bool) (s : SysState)
    (h : s.globals.term_info_set = false) :
    (bis_restore_terminal setOk s).1 = -1 ∧
    (bis_restore_terminal setOk s).2.globals.error_info.is_errno = false ∧
    (bis_restore_terminal setOk s).2.terminal = s.terminal ∧
    (bis_restore_terminal setOk s).2.globals.term_info = s.globals.term_info ∧
    (bis_restore_terminal setOk s).2.globals.term_info_set = s.globals.term_info_set ∧
    (∀ b, bis_restore_terminal b s = bis_restore_terminal setOk s) := by
  simp [bis_restore_terminal, h]

/-- Witness for C3 at the fresh start state. -/
theorem C3_restore_unprepared_fails_witness :
    (bis_restore_terminal true sampleState).1 = -1 :=
  (C3_restore_unprepared_fails true sampleState (by decide)).1

/-- C4: when `tcgetattr` succeeds but `tcsetattr` fails inside
`bis_prepare_terminal`, the call returns `-1`, yet the snapshot holds the
pre-call attributes and the flag is set, so a subsequent successful
`bis_restore_terminal` returns `0` and reapplies the pre-call
attributes. -/
theorem C4_prepare_applyfail_restore (s : SysState) :
    (bis_prepare_terminal true false s).1 = -1 ∧
    (bis_prepare_terminal true false s).2.globals.term_info_set = true ∧
    (bis_prepare_terminal true false s).2.globals.term_info = s.terminal ∧
    (bis_restore_terminal true (bis_prepare_terminal true false s).2).1 = 0 ∧
    (bis_restore_terminal true (bis_prepare_terminal true false s).2).2.terminal
      = s.terminal := by
  refine ⟨rfl, rfl, rfl, ?_, ?_⟩ <;>
    simp [bis_prepare_terminal, bis_restore_terminal]

/-- C5: when `tcgetattr` fails, `bis_prepare_terminal` returns `-1`, sets
the error record to the query-failure message with `is_errno = 1`, and
leaves `bis_term_info_set` at whatever value it had. -/
theorem C5_prepare_queryfail (setOk : Bool) (s : SysState) :
    (bis_prepare_terminal false setOk s).1 = -1 ∧
    (bis_prepare_terminal false setOk s).2.globals.error_info
      = { error_str := some "Error getting terminal attributes", is_errno := true } ∧
    (bis_prepare_terminal false setOk s).2.globals.term_info_set
      = s.globals.term_info_set := by
  simp [bis_prepare_terminal]

/-- C6: two successful `bis_prepare_terminal` calls in a row followed by
a successful `bis_restore_terminal` restore the attributes the second
prepare captured (the already-non-canonical ones), which differ from the
original pre-first-call attributes whenever `ICANON` was set there. -/
theorem C6_double_prepare_second_snapshot (s : SysState) :
    (bis_prepare_terminal true true (bis_prepare_terminal true true s).2).2.globals.term_info
      = (bis_prepare_terminal true true s).2.terminal ∧
    (bis_restore_terminal true
        (bis_prepare_terminal true true (bis_prepare_terminal true true s).2).2).2.terminal
      = (bis_prepare_terminal true true (bis_prepare_terminal true true s).2).2.globals.term_info ∧
    (s.terminal.c_lflag.testBit 1 = true →
      (bis_restore_terminal true
          (bis_prepare_terminal true true (bis_prepare_terminal true true s).2).2).2.terminal
        ≠ s.terminal) := by
  refine ⟨rfl, rfl, ?_⟩
  intro hbit heq
  have h1 : (clearCanon s.terminal).c_lflag.testBit 1 = false :=
    clearCanon_testBit_one s.terminal
  have h2 : clearCanon s.terminal = s.terminal := heq
  rw [h2, hbit] at h1
  exact Bool.noConfusion h1

/-- Witness for C6 at a concrete state with `ICANON` set: the restored
attributes are not the pre-first-call ones. -/
theorem C6_double_prepare_second_snapshot_witness :
    (bis_restore_terminal true
        (bis_prepare_terminal true true (bis_prepare_terminal true true sampleState).2).2).2.terminal
      ≠ sampleState.terminal :=
  (C6_double_prepare_second_snapshot sampleState).2.2 (by decide)

/-- C7 counterexample: at the fresh start state, the message stored by
`bis_restore_terminal` is not the spec's literal
"restore called before prepare". -/
theorem C7_restore_message_counterexample :
    ¬ ((bis_restore_terminal true sampleState).2.globals.error_info.error_str
        = some "restore called before prepare") := by
  decide

/-- C7 amended: when `bis_term_info_set` is false, the error record set
by `bis_restore_terminal` carries exactly the message
"bis_restore_terminal called before bis_prepare_terminal" together with
`is_errno = 0`. -/
theorem C7_restore_unprepared_message (setOk : Bool) (s : SysState)
    (h : s.globals.term_info_set = false) :
    (bis_restore_terminal setOk s).2.globals.error_info
      = { error_str := some "bis_restore_terminal called before bis_prepare_terminal"
          is_errno := false } := by
  simp [bis_restore_terminal, h]

/-- Witness for the amended C7 at the fresh start state. -/
theorem C7_restore_unprepared_message_witness :
    (bis_restore_terminal true sampleState).2.globals.error_info
      = { error_str := some "bis_restore_terminal called before bis_prepare_terminal"
          is_errno := false } :=
  C7_restore_unprepared_message true sampleState (by decide)

/-- The flag `bis_term_info_set`, once true, stays true across any single
call. -/
theorem runOp_term_info_set_mono (op : Op) (s : SysState)
    (h : s.globals.term_info_set = true) :
    (runOp op s).globals.term_info_set = true := by
  cases op with
  | prepare getOk setOk =>
      cases getOk <;> cases setOk <;> simp [runOp, bis_prepare_terminal, h]
  | restore setOk =>
      cases setOk <;> simp [runOp, bis_restore_terminal, h]

/-- The flag `bis_term_info_set`, once true, stays true across any call
sequence. -/
theorem runOps_term_info_set_mono (ops : List Op) (s : SysState)
    (h : s.globals.term_info_set = true) :
    (runOps ops s).globals.term_info_set = true := by
  induction ops generalizing s with
  | nil => exact h
  | cons op rest ih => exact ih (runOp op s) (runOp_term_info_set_mono op s h)

/-- C8: `bis_term_info_set` starts false, any successful
`bis_prepare_terminal` leaves it true, and no sequence of prepare or
restore calls (succeeding or failing) ever takes it from true back to
false. -/
theorem C8_prepared_flag_lifecycle (t0 : Termios) (getOk setOk : Bool)
    (ops : List Op) (s : SysState) :
    (initGlobals t0).term_info_set = false ∧
    ((bis_prepare_terminal getOk setOk s).1 = 0 →
      (bis_prepare_terminal getOk setOk s).2.globals.term_info_set = true) ∧
    (s.globals.term_info_set = true →
      (runOps ops s).globals.term_info_set = true) := by
  refine ⟨rfl, ?_, fun h => runOps_term_info_set_mono ops s h⟩
  cases getOk with
  | false => intro h; exact absurd h (by simp [bis_prepare_terminal])
  | true => cases setOk <;> intro h <;> simp [bis_prepare_terminal]

/-- Witness for C8: after a successful prepare, a failing restore and a
failing prepare, the flag is still true. -/
theorem C8_prepared_flag_lifecycle_witness :
    (runOps [Op.restore false, Op.prepare false true]
        (bis_prepare_terminal true true sampleState).2).globals.term_info_set = true :=
  (C8_prepared_flag_lifecycle sampleTermios true true
      [Op.restore false, Op.prepare false true]
      (bis_prepare_terminal true true sampleState).2).2.2 (by decide)

/-- C9: neither function touches the error record on a success path, and
every failure path writes it with one of the four concrete records of the
source. -/
theorem C9_lasterror_frame (getOk setOk rOk : Bool) (s : SysState) :
    ((bis_prepare_terminal getOk setOk s).1 = 0 →
      (bis_prepare_terminal getOk setOk s).2.globals.error_info = s.globals.error_info) ∧
    ((bis_restore_terminal rOk s).1 = 0 →
      (bis_restore_terminal rOk s).2.globals.error_info = s.globals.error_info) ∧
    ((bis_prepare_terminal getOk setOk s).1 = -1 →
      ((bis_prepare_terminal getOk setOk s).2.globals.error_info
          = { error_str := some "Error getting terminal attributes", is_errno := true } ∨
       (bis_prepare_terminal getOk setOk s).2.globals.error_info
          = { error_str := some "Error setting terminal attributes", is_errno := true })) ∧
    ((bis_restore_terminal rOk s).1 = -1 →
      ((bis_restore_terminal rOk s).2.globals.error_info
          = { error_str := some "bis_restore_terminal called before bis_prepare_terminal"
              is_errno := false } ∨
       (bis_restore_terminal rOk s).2.globals.error_info
          = { error_str := some "Error restoring terminal attributes", is_errno := true })) := by
  cases getOk <;> cases setOk <;> cases rOk <;>
    cases hf : s.globals.term_info_set <;>
      simp [bis_prepare_terminal, bis_restore_terminal, hf]

/-- Witness for C9: a successful prepare leaves the error record of the
fresh start state unchanged. -/
theorem C9_lasterror_frame_witness :
    (bis_prepare_terminal true true sampleState).2.globals.error_info
      = sampleState.globals.error_info :=
  (C9_lasterror_frame true true true sampleState).1 (by decide)

/-- C10: a `bis_prepare_terminal` call whose `tcgetattr` fails returns
before the `memcpy`, so the stored snapshot, the flag and the terminal
device are all bit-for-bit unchanged. -/
theorem C10_queryfail_snapshot_frame (setOk : Bool) (s : SysState) :
    (bis_prepare_terminal false setOk s).2.globals.term_info = s.globals.term_info ∧
    (bis_prepare_terminal false setOk s).2.globals.term_info_set = s.globals.term_info_set ∧
    (bis_prepare_terminal false setOk s).2.terminal = s.terminal := by
  simp [bis_prepare_terminal]
